import Mathlib

/-!
Shallow embedding of the data-access core of the json-api repository
(Go module github.com/mroobert/json-api) and proofs about it.

The relational store is modelled as a list of rows per table; the SQL
statements embedded in the Go sources are modelled as pure functions on
those lists.  Driver-level errors are modelled as an inductive type whose
constructors stand for the distinct Go sentinel error values involved.
-/

namespace JsonApi

/-- GoErr models the Go error values that flow through the repository layer.
Each constructor stands for a distinct sentinel or error shape:
pgxNoRows is pgx.ErrNoRows, sqlNoRows is database/sql.ErrNoRows,
pgErr carries the SQLSTATE code of a *pgconn.PgError,
recordNotFound / editConflict / duplicateEmail are the package data
sentinels ErrRecordNotFound / ErrEditConflict / ErrDuplicateEmail, and
otherErr stands for any other infrastructure error.  The module pins
pgx v5.0.4 (go.mod), in which pgx.ErrNoRows is a bare errors.New value
that does not wrap database/sql.ErrNoRows, so all sentinels here are
pairwise unrelated error values. -/
inductive GoErr where
  | pgxNoRows : GoErr
  | sqlNoRows : GoErr
  | pgErr (code : String) : GoErr
  | recordNotFound : GoErr
  | editConflict : GoErr
  | duplicateEmail : GoErr
  | otherErr (tag : Nat) : GoErr
  deriving DecidableEq, Repr

/-- errorsIs models Go errors.Is between the modelled error values.
None of the modelled sentinels wraps another (see GoErr), so errors.Is
degenerates to identity of the sentinel values. -/
def errorsIs (e target : GoErr) : Bool :=
  e = target

/-- errorsAsPgError models Go errors.As(err, &pgError) for *pgconn.PgError:
it succeeds exactly on the pgErr shape and yields the SQLSTATE code. -/
def errorsAsPgError : GoErr → Option String
  | .pgErr code => some code
  | _ => none

/-- UniqueViolation is the SQLSTATE constant from internal/database
(part_001): const UniqueViolation = "23505". -/
def UniqueViolation : String := "23505"

/-- Movie mirrors the struct data.Movie of internal/data/movies.go and,
equally, one row of the movies table (the columns scanned are exactly the
struct fields).  Go int64/int32 are modelled as Int; the creation
timestamp is modelled as an Int tick. -/
structure Movie where
  ID : Int
  CreatedAt : Int
  Title : String
  Year : Int
  Runtime : Int
  Genres : List String
  Version : Int
  deriving DecidableEq, Repr

/-- A movies table is a list of rows. -/
abbrev MovieTable := List Movie

/-- movieRowMatches is the WHERE predicate of the movie update statement
(src/unnamed/part_003): id = $5 AND version = $6. -/
def movieRowMatches (id version : Int) (r : Movie) : Bool :=
  r.ID = id && r.Version = version

/-- execUpdateMovie models queries/movies/update.sql (src/unnamed/part_003)
run through QueryRow(...).Scan: UPDATE movies SET title, year, runtime,
genres, version = version + 1 WHERE id = $5 AND version = $6 RETURNING
version.  When no row matches, QueryRow surfaces pgx.ErrNoRows; otherwise
every matching row is updated and the returned value is the new version of
the matched row. -/
def execUpdateMovie (db : MovieTable) (title : String) (year runtime : Int)
    (genres : List String) (id version : Int) :
    Except GoErr (MovieTable × Int) :=
  match db.find? (movieRowMatches id version) with
  | none => .error .pgxNoRows
  | some r =>
      .ok (db.map (fun s =>
            if movieRowMatches id version s then
              { s with Title := title, Year := year, Runtime := runtime,
                       Genres := genres, Version := s.Version + 1 }
            else s),
          r.Version + 1)

/-- MovieRepository.Update mirrors internal/data/movies.go lines 147-170:
run the update statement, write the returned version back into the
movie of the caller, and classify pgx.ErrNoRows as ErrEditConflict;
every other error is returned unmodified. -/
def MovieRepository.Update (db : MovieTable) (movie : Movie) :
    Except GoErr (MovieTable × Movie) :=
  match execUpdateMovie db movie.Title movie.Year movie.Runtime movie.Genres
      movie.ID movie.Version with
  | .error e =>
      .error (if errorsIs e .pgxNoRows then .editConflict else e)
  | .ok (db2, v) => .ok (db2, { movie with Version := v })

/-- Modelled from the spec: queries/movies/read.sql is embedded by
internal/data/movies.go but absent from the sources; the spec describes
Read as a primary-key lookup (each resource table has an integer primary
key).  A query with zero result rows surfaces through QueryRow as the
pgx no-rows driver error. -/
def execReadMovie (db : MovieTable) (id : Int) : Except GoErr Movie :=
  match db.find? (fun r => r.ID = id) with
  | none => .error .pgxNoRows
  | some r => .ok r

/-- MovieRepository.Read mirrors internal/data/movies.go lines 116-143:
id < 1 is rejected as ErrRecordNotFound before any store call; otherwise
one query runs and pgx.ErrNoRows is classified as ErrRecordNotFound while
any other error is returned unmodified.  The Nat component counts the
store round-trips the call performed. -/
def MovieRepository.Read (db : MovieTable) (id : Int) :
    Except GoErr Movie × Nat :=
  if id < 1 then (.error .recordNotFound, 0)
  else
    match execReadMovie db id with
    | .error e =>
        (.error (if errorsIs e .pgxNoRows then .recordNotFound else e), 1)
    | .ok m => (.ok m, 1)

/-- Modelled from the spec: queries/movies/delete.sql is embedded by
internal/data/movies.go but absent from the sources; the spec describes
Delete as a physical delete by id whose outcome is judged from the rows
affected.  The result is the table without the matching rows together
with the number of rows affected. -/
def execDeleteMovie (db : MovieTable) (id : Int) : MovieTable × Nat :=
  (db.filter (fun r => !(r.ID = id)), (db.filter (fun r => r.ID = id)).length)

/-- MovieRepository.Delete mirrors internal/data/movies.go lines 173-190:
id < 1 is rejected as ErrRecordNotFound before any store call; otherwise
the delete statement runs once and zero rows affected is classified as
ErrRecordNotFound.  The Nat component counts the store round-trips. -/
def MovieRepository.Delete (db : MovieTable) (id : Int) :
    Except GoErr Unit × MovieTable × Nat :=
  if id < 1 then (.error .recordNotFound, db, 0)
  else
    let res := execDeleteMovie db id
    if res.2 = 0 then (.error .recordNotFound, res.1, 1)
    else (.ok (), res.1, 1)

/-- User mirrors the struct data.User of the users data file (second
document of src/cmd/api/movies.go) and, equally, one row of the users
table.  The bcrypt hash bytes are modelled as a list of byte values. -/
structure User where
  ID : Int
  CreatedAt : Int
  Name : String
  Email : String
  PasswordHash : List Nat
  Activated : Bool
  Version : Int
  deriving DecidableEq, Repr

/-- A users table is a list of rows. -/
abbrev UserTable := List User

/-- userRowMatches is the WHERE predicate of the user update statement
(src/unnamed/part_004): id = $5 AND version = $6. -/
def userRowMatches (id version : Int) (u : User) : Bool :=
  u.ID = id && u.Version = version

/-- execUpdateUser models queries/users/update.sql (src/unnamed/part_004)
run through QueryRow(...).Scan: UPDATE users SET name, email,
password_hash, activated, version = version + 1 WHERE id = $5 AND
version = $6 RETURNING version.  Zero matching rows surface as
pgx.ErrNoRows.  The users table carries a unique index on email (spec
section 6), so an update that would leave two rows with the same email
fails with SQLSTATE 23505. -/
def execUpdateUser (db : UserTable) (name email : String)
    (hash : List Nat) (activated : Bool) (id version : Int) :
    Except GoErr (UserTable × Int) :=
  match db.find? (userRowMatches id version) with
  | none => .error .pgxNoRows
  | some r =>
      if db.any (fun s => !(s.ID = id) && s.Email = email) then
        .error (.pgErr UniqueViolation)
      else
        .ok (db.map (fun s =>
              if userRowMatches id version s then
                { s with Name := name, Email := email, PasswordHash := hash,
                         Activated := activated, Version := s.Version + 1 }
              else s),
            r.Version + 1)

/-- classifyUserErr mirrors the error triage shared by UserRepository
Create and Update (users data file): errors.As for *pgconn.PgError, map
SQLSTATE 23505 to ErrDuplicateEmail, and return every other error
unmodified.  In particular a no-rows error is NOT classified here. -/
def classifyUserErr (e : GoErr) : GoErr :=
  match errorsAsPgError e with
  | some code => if code = UniqueViolation then .duplicateEmail else e
  | none => e

/-- UserRepository.Update mirrors the users data file lines 334-359:
run the update statement, write the returned version back, and triage
only unique-constraint violations. -/
def UserRepository.Update (db : UserTable) (user : User) :
    Except GoErr (UserTable × User) :=
  match execUpdateUser db user.Name user.Email user.PasswordHash
      user.Activated user.ID user.Version with
  | .error e => .error (classifyUserErr e)
  | .ok (db2, v) => .ok (db2, { user with Version := v })

/-- Modelled from the spec: queries/users/create.sql is embedded by the
users data file but absent from the sources; the spec describes Create as
a single insert returning the store-assigned id, timestamp and version 1,
on a table with a unique index on email (spec sections 4.3 and 6).  The
store-assigned id and timestamp are passed in as the choice the store
makes. -/
def execCreateUser (db : UserTable) (name email : String) (hash : List Nat)
    (activated : Bool) (newId ts : Int) :
    Except GoErr (UserTable × Int × Int × Int) :=
  if db.any (fun s => s.Email = email) then
    .error (.pgErr UniqueViolation)
  else
    .ok (db ++ [⟨newId, ts, name, email, hash, activated, 1⟩], newId, ts, 1)

/-- UserRepository.Create mirrors the users data file lines 281-299:
run the insert, write the assigned id, timestamp and version back, and
triage only unique-constraint violations. -/
def UserRepository.Create (db : UserTable) (user : User) (newId ts : Int) :
    Except GoErr (UserTable × User) :=
  match execCreateUser db user.Name user.Email user.PasswordHash
      user.Activated newId ts with
  | .error e => .error (classifyUserErr e)
  | .ok (db2, id2, ts2, ver) =>
      .ok (db2, { user with ID := id2, CreatedAt := ts2, Version := ver })

/-- Modelled from the spec: queries/users/read.sql is embedded by the
users data file but absent from the sources; the code comment above Read
says the lookup is by the unique email column, returning one row or none.
A query with zero result rows surfaces through QueryRow as the pgx
no-rows driver error (the pool is pgx). -/
def execReadUser (db : UserTable) (email : String) : Except GoErr User :=
  match db.find? (fun u => u.Email = email) with
  | none => .error .pgxNoRows
  | some u => .ok u

/-- UserRepository.Read mirrors the users data file lines 304-330: run the
lookup and classify a database/sql no-rows sentinel as ErrRecordNotFound.
The comparison target is sql.ErrNoRows even though the driver is pgx, so
the branch never fires for the error the pgx pool actually returns. -/
def UserRepository.Read (db : UserTable) (email : String) :
    Except GoErr User :=
  match execReadUser db email with
  | .error e =>
      .error (if errorsIs e .sqlNoRows then .recordNotFound else e)
  | .ok u => .ok u

/-- UpdateMovie mirrors the struct data.UpdateMovie of
internal/data/movies.go: every field is a pointer (here an Option) so a
field that was not provided is distinguishable from a field provided as
explicitly blank; the genres slice uses nil (here none) as absent. -/
structure UpdateMovie where
  Title : Option String
  Year : Option Int
  Runtime : Option Int
  Genres : Option (List String)
  deriving DecidableEq, Repr

/-- Movie.FromUpdateMovie mirrors internal/data/movies.go lines 89-103:
each field of the record is overwritten only when the corresponding input
field is non-nil. -/
def Movie.FromUpdateMovie (m : Movie) (input : UpdateMovie) : Movie :=
  let m := match input.Title with
    | some t => { m with Title := t }
    | none => m
  let m := match input.Year with
    | some y => { m with Year := y }
    | none => m
  let m := match input.Runtime with
    | some r => { m with Runtime := r }
    | none => m
  match input.Genres with
  | some g => { m with Genres := g }
  | none => m

/-- LegacyUpdateMovie mirrors the struct data.UpdateMovie of the legacy
movie model revision (third document of src/cmd/api/movies.go, lines
448-453): plain non-pointer fields, so an absent JSON field decodes to
the zero value of its type and is indistinguishable from a provided zero
value. -/
structure LegacyUpdateMovie where
  Title : String
  Year : Int
  Runtime : Int
  Genres : List String
  deriving DecidableEq, Repr

/-- Movie.LegacyFromUpdateMovie mirrors the legacy revision lines 480-485:
every field of the record is overwritten unconditionally. -/
def Movie.LegacyFromUpdateMovie (m : Movie) (input : LegacyUpdateMovie) :
    Movie :=
  { m with Title := input.Title, Year := input.Year,
           Runtime := input.Runtime, Genres := input.Genres }

/-- Modelled from the spec: the internal/validator package is imported by
internal/database/filters.go but absent from the sources; the spec
(section 4.1) describes validation as a pure predicate check producing a
field to message mapping.  Errors is that mapping, with the first message
recorded per field kept. -/
structure Validator where
  Errors : List (String × String)
  deriving DecidableEq, Repr

/-- Modelled from the spec: a fresh validator with an empty mapping. -/
def Validator.New : Validator := ⟨[]⟩

/-- Modelled from the spec: AddError records a message under a field key
unless the key already carries one. -/
def Validator.AddError (v : Validator) (key message : String) : Validator :=
  if v.Errors.any (fun p => p.1 = key) then v
  else ⟨v.Errors ++ [(key, message)]⟩

/-- Modelled from the spec: Check records the message when the condition
does not hold. -/
def Validator.Check (v : Validator) (ok : Bool) (key message : String) :
    Validator :=
  if ok then v else v.AddError key message

/-- Modelled from the spec: a validator is valid when the mapping is
empty. -/
def Validator.Valid (v : Validator) : Bool :=
  v.Errors.isEmpty

/-- Modelled from the spec: validator.PermittedValue reports whether a
value occurs in the given safelist. -/
def PermittedValue (value : String) (safelist : List String) : Bool :=
  safelist.contains value

/-- Filters mirrors the struct database.Filters of
internal/database/filters.go. -/
structure Filters where
  Page : Int
  PageSize : Int
  «Sort» : String
  SortSafelist : List String
  deriving DecidableEq, Repr

/-- Metadata mirrors the struct database.Metadata of
internal/database/filters.go. -/
structure Metadata where
  CurrentPage : Int
  PageSize : Int
  FirstPage : Int
  LastPage : Int
  TotalRecords : Int
  deriving DecidableEq, Repr

/-- Metadata.zero is the Go zero value Metadata\x7b\x7d. -/
def Metadata.zero : Metadata := ⟨0, 0, 0, 0, 0⟩

/-- goCeilIntDiv models int(math.Ceil(float64(a) / float64(b))) from
NewMetadata for the arguments the code reaches there: a is a positive row
count and b a positive page size, both far inside the range where float64
arithmetic reproduces the exact rational ceiling, which for positive
integers is (a + b - 1) / b. -/
def goCeilIntDiv (a b : Int) : Int :=
  (a + b - 1) / b

/-- NewMetadata mirrors internal/database/filters.go lines 30-42. -/
def NewMetadata (totalRecords page pageSize : Int) : Metadata :=
  if totalRecords = 0 then Metadata.zero
  else
    { CurrentPage := page
      PageSize := pageSize
      FirstPage := 1
      LastPage := goCeilIntDiv totalRecords pageSize
      TotalRecords := totalRecords }

/-- Filters.ValidateFilters mirrors internal/database/filters.go lines
45-51, threading the validator through the five checks in source
order. -/
def Filters.ValidateFilters (f : Filters) (v : Validator) : Validator :=
  ((((v.Check (decide (f.Page > 0)) "page" "must be greater than zero").Check
      (decide (f.Page ≤ 10000000)) "page" "must be a maximum of 10 million").Check
      (decide (f.PageSize > 0)) "page_size" "must be greater than zero").Check
      (decide (f.PageSize ≤ 100)) "page_size" "must be a maximum of 100").Check
      (PermittedValue f.«Sort» f.SortSafelist) "sort" "invalid sort value"

/-- trimDashOnce models strings.TrimPrefix(s, "-"): remove one leading
dash when present, otherwise return the string unchanged. -/
def trimDashOnce (s : String) : String :=
  if s.startsWith "-" then s.drop 1 else s

/-- sortColumnLoop is the loop body of Filters.SortColumn: walk the
safelist and return the trimmed sort key on the first match; falling off
the loop reaches the defensive panic, modelled as none. -/
def sortColumnLoop : List String → String → Option String
  | [], _ => none
  | safeValue :: rest, sort =>
      if sort = safeValue then some (trimDashOnce sort)
      else sortColumnLoop rest sort

/-- Filters.SortColumn mirrors internal/database/filters.go lines 54-62;
none stands for the panic branch. -/
def Filters.SortColumn (f : Filters) : Option String :=
  sortColumnLoop f.SortSafelist f.«Sort»

/-- Filters.SortDirection mirrors internal/database/filters.go lines
65-71. -/
def Filters.SortDirection (f : Filters) : String :=
  if f.«Sort».startsWith "-" then "DESC" else "ASC"

/-- Filters.Limit mirrors internal/database/filters.go lines 74-76. -/
def Filters.Limit (f : Filters) : Int :=
  f.PageSize

/-- Filters.Offset mirrors internal/database/filters.go lines 80-82. -/
def Filters.Offset (f : Filters) : Int :=
  (f.Page - 1) * f.PageSize

/-- movieWhere is the WHERE predicate of the list query of
MovieRepository.ReadAll (internal/data/movies.go lines 195-201):
(to_tsvector(title) matches plainto_tsquery($1) OR $1 = '') AND
(genres contains $2 OR $2 = empty array).  The full-text match relation
of the store is abstracted as the parameter ftMatch. -/
def movieWhere (ftMatch : String → String → Bool)
    (titleQ : String) (genresQ : List String) (r : Movie) : Bool :=
  (ftMatch r.Title titleQ || titleQ = "") &&
    (genresQ.all (fun g => r.Genres.contains g) || genresQ.isEmpty)

/-- MovieRepository.ReadAll mirrors internal/data/movies.go lines 194-242:
select the rows matched by the WHERE predicate, return the LIMIT/OFFSET
window of them, and build the metadata from the window count the rows
carry — the count scanned in the row loop, which stays 0 when the window
is empty.  ORDER BY only permutes the matched rows before the window is
taken and is not modelled; the matched list is kept in store order. -/
def MovieRepository.ReadAll (db : MovieTable)
    (ftMatch : String → String → Bool)
    (title : String) (genres : List String) (filters : Filters) :
    List Movie × Metadata :=
  let matched := db.filter (movieWhere ftMatch title genres)
  let pageRows := (matched.drop filters.Offset.toNat).take filters.Limit.toNat
  let totalRecords : Int := if pageRows.isEmpty then 0 else matched.length
  (pageRows, NewMetadata totalRecords filters.Page filters.PageSize)

/-! Helper lemmas about the validator. -/

lemma Validator.AddError_not_valid (v : Validator) (key msg : String) :
    (v.AddError key msg).Valid = false := by
  unfold Validator.AddError Validator.Valid
  by_cases h : v.Errors.any (fun p => p.1 = key) = true
  · obtain ⟨x, hx, _⟩ := List.any_eq_true.mp h
    simp [h]
    intro hnil
    rw [hnil] at hx
    cases hx
  · simp [h]

lemma Validator.Check_valid_iff (v : Validator) (ok : Bool)
    (key msg : String) :
    (v.Check ok key msg).Valid = true ↔ (ok = true ∧ v.Valid = true) := by
  cases ok with
  | true => simp [Validator.Check]
  | false => simp [Validator.Check, Validator.AddError_not_valid]

lemma Validator.Check_preserves_key (v : Validator) (ok : Bool)
    (key msg k0 : String)
    (h : v.Errors.any (fun p => p.1 = k0) = true) :
    ((v.Check ok key msg).Errors.any (fun p => p.1 = k0)) = true := by
  obtain ⟨x, hx, hxk⟩ := List.any_eq_true.mp h
  unfold Validator.Check Validator.AddError
  by_cases hok : ok = true
  · simpa [hok] using h
  · rw [Bool.not_eq_true] at hok
    by_cases hkey : v.Errors.any (fun p => p.1 = key) = true
    · simpa [hok, hkey] using h
    · simp only [hok, hkey]
      simp only [Bool.false_eq_true, if_false]
      exact List.any_eq_true.mpr ⟨x, List.mem_append_left _ hx, hxk⟩

/-- C6: NewMetadata returns the all-zero metadata when the total record
count is 0; otherwise the current page, page size, first page 1 and the
total are copied through and the last page L satisfies
pageSize * (L - 1) < total ≤ pageSize * L, that is, L is the ceiling of
total / pageSize.  Concretely, 45 records at page 1 with page size 20
yield Metadata with current page 1, page size 20, first page 1, last
page 3 and total 45. -/
theorem c6_new_metadata_pagination (t p ps : Int) :
    (t = 0 → NewMetadata t p ps = Metadata.zero) ∧
    (t ≠ 0 → 0 < t → 0 < ps →
      (NewMetadata t p ps).CurrentPage = p ∧
      (NewMetadata t p ps).PageSize = ps ∧
      (NewMetadata t p ps).FirstPage = 1 ∧
      (NewMetadata t p ps).TotalRecords = t ∧
      ps * ((NewMetadata t p ps).LastPage - 1) < t ∧
      t ≤ ps * (NewMetadata t p ps).LastPage) ∧
    NewMetadata 45 1 20 = ⟨1, 20, 1, 3, 45⟩ := by
  refine ⟨?_, ?_, by decide⟩
  · intro h0
    simp [NewMetadata, h0]
  · intro hne _ hps
    have hmeta : NewMetadata t p ps =
        { CurrentPage := p, PageSize := ps, FirstPage := 1,
          LastPage := goCeilIntDiv t ps, TotalRecords := t } := by
      simp [NewMetadata, hne]
    rw [hmeta]
    refine ⟨rfl, rfl, rfl, rfl, ?_, ?_⟩
    · have h1 := Int.ediv_add_emod (t + ps - 1) ps
      have h2 := Int.emod_nonneg (t + ps - 1) (ne_of_gt hps)
      unfold goCeilIntDiv
      rw [mul_sub, mul_one]
      linarith
    · have h1 := Int.ediv_add_emod (t + ps - 1) ps
      have h3 := Int.emod_lt_of_pos (t + ps - 1) hps
      unfold goCeilIntDiv
      linarith

/-- Witness for c6_new_metadata_pagination at total 45, page 1, page
size 20 and at total 0. -/
theorem c6_new_metadata_pagination_witness :
    ((NewMetadata 45 1 20).CurrentPage = 1 ∧
      (NewMetadata 45 1 20).PageSize = 20 ∧
      (NewMetadata 45 1 20).FirstPage = 1 ∧
      (NewMetadata 45 1 20).TotalRecords = 45 ∧
      (20 : Int) * ((NewMetadata 45 1 20).LastPage - 1) < 45 ∧
      (45 : Int) ≤ 20 * (NewMetadata 45 1 20).LastPage) ∧
    NewMetadata 0 3 20 = Metadata.zero :=
  ⟨(c6_new_metadata_pagination 45 1 20).2.1 (by decide) (by decide) (by decide),
    (c6_new_metadata_pagination 0 3 20).1 rfl⟩

/-- sortColumnLoop returns the trimmed sort key exactly when the key is a
member of the safelist, and reaches the panic branch otherwise. -/
lemma sortColumnLoop_eq (l : List String) (sort : String) :
    sortColumnLoop l sort =
      if sort ∈ l then some (trimDashOnce sort) else none := by
  induction l with
  | nil => simp [sortColumnLoop]
  | cons a rest ih =>
      by_cases h : sort = a
      · simp [sortColumnLoop, h]
      · simp [sortColumnLoop, h, ih]

/-- C7: when the sort key of a Filters value is in the safelist,
SortColumn returns the key with a leading dash stripped and the panic
branch is unreachable; when it is not, SortColumn reaches the panic
branch (returns no column) and ValidateFilters rejects the value, so no
default column is ever substituted. -/
theorem c7_sort_column_safelist (f : Filters) :
    (f.«Sort» ∈ f.SortSafelist →
      f.SortColumn = some (trimDashOnce f.«Sort»)) ∧
    (f.«Sort» ∉ f.SortSafelist →
      f.SortColumn = none ∧
      (f.ValidateFilters Validator.New).Valid = false) := by
  constructor
  · intro hmem
    unfold Filters.SortColumn
    rw [sortColumnLoop_eq, if_pos hmem]
  · intro hmem
    refine ⟨?_, ?_⟩
    · unfold Filters.SortColumn
      rw [sortColumnLoop_eq, if_neg hmem]
    · have hperm : PermittedValue f.«Sort» f.SortSafelist = false := by
        simp [PermittedValue, hmem]
      unfold Filters.ValidateFilters
      rw [hperm]
      unfold Validator.Check
      simp [Validator.AddError_not_valid]

/-- Witness for c7_sort_column_safelist: the key -year is in the
safelist and resolves to the year column; the key bogus is not in the
safelist, yields no column and fails validation. -/
theorem c7_sort_column_safelist_witness :
    (Filters.SortColumn ⟨1, 20, "-year", ["id", "-year"]⟩ =
      some (trimDashOnce "-year")) ∧
    (Filters.SortColumn ⟨1, 20, "bogus", ["id", "-year"]⟩ = none ∧
      (Filters.ValidateFilters ⟨1, 20, "bogus", ["id", "-year"]⟩
        Validator.New).Valid = false) :=
  ⟨(c7_sort_column_safelist ⟨1, 20, "-year", ["id", "-year"]⟩).1 (by decide),
    (c7_sort_column_safelist ⟨1, 20, "bogus", ["id", "-year"]⟩).2 (by decide)⟩

/-- C8: with an empty full-text query and an empty genre set the WHERE
predicate of the list query holds for every row, whatever the store
full-text match relation does, so the listing returns every record
subject only to the LIMIT/OFFSET window. -/
theorem c8_empty_predicates_match_all (db : MovieTable)
    (ftMatch : String → String → Bool) (f : Filters) :
    db.filter (movieWhere ftMatch "" []) = db ∧
    (MovieRepository.ReadAll db ftMatch "" [] f).1 =
      (db.drop f.Offset.toNat).take f.Limit.toNat := by
  have hall : db.filter (movieWhere ftMatch "" []) = db :=
    List.filter_eq_self.mpr (fun r _ => by simp [movieWhere])
  refine ⟨hall, ?_⟩
  simp only [MovieRepository.ReadAll, hall]

/-- C9 counterexample: the legacy merge (third document of
src/cmd/api/movies.go) cannot leave a field unchanged on an absent
input field — an absent title decodes to the empty string and still
overwrites the stored title Up. -/
theorem c9_legacy_merge_counterexample :
    ¬ ((Movie.LegacyFromUpdateMovie ⟨1, 0, "Up", 2009, 96, ["animation"], 1⟩
        ⟨"", 0, 0, []⟩).Title = "Up") := by
  decide

/-- C9 amended: for the pointer-based partial update of
internal/data/movies.go the merge leaves every record field unchanged
when the input field is absent (none) and overwrites it with the
supplied value when present, so present-but-empty is distinguished from
absent; id, creation timestamp and version are never touched.  The
legacy revision instead overwrites every business field
unconditionally. -/
theorem c9_amended_partial_update_merge (m : Movie) (u : UpdateMovie)
    (lu : LegacyUpdateMovie) :
    (m.FromUpdateMovie u).Title = u.Title.getD m.Title ∧
    (m.FromUpdateMovie u).Year = u.Year.getD m.Year ∧
    (m.FromUpdateMovie u).Runtime = u.Runtime.getD m.Runtime ∧
    (m.FromUpdateMovie u).Genres = u.Genres.getD m.Genres ∧
    (m.FromUpdateMovie u).ID = m.ID ∧
    (m.FromUpdateMovie u).CreatedAt = m.CreatedAt ∧
    (m.FromUpdateMovie u).Version = m.Version ∧
    m.LegacyFromUpdateMovie lu =
      { m with Title := lu.Title, Year := lu.Year, Runtime := lu.Runtime,
               Genres := lu.Genres } := by
  obtain ⟨t, y, r, g⟩ := u
  cases t <;> cases y <;> cases r <;> cases g <;>
    simp [Movie.FromUpdateMovie, Movie.LegacyFromUpdateMovie]

/-- C10: filter validation enforces the undocumented upper bound of
10,000,000 on the page number — any larger page records an error under
the page key and fails validation — and overall a Filters value is valid
exactly when 1 <= page <= 10,000,000, 1 <= pageSize <= 100 and the sort
key is in the safelist. -/
theorem c10_validate_filters_page_upper_bound (f : Filters) :
    (10000000 < f.Page →
      ((f.ValidateFilters Validator.New).Errors.any
        (fun p => p.1 = "page")) = true ∧
      (f.ValidateFilters Validator.New).Valid = false) ∧
    ((f.ValidateFilters Validator.New).Valid = true ↔
      (0 < f.Page ∧ f.Page ≤ 10000000 ∧ 0 < f.PageSize ∧
        f.PageSize ≤ 100 ∧ f.«Sort» ∈ f.SortSafelist)) := by
  have hiff : (f.ValidateFilters Validator.New).Valid = true ↔
      (0 < f.Page ∧ f.Page ≤ 10000000 ∧ 0 < f.PageSize ∧
        f.PageSize ≤ 100 ∧ f.«Sort» ∈ f.SortSafelist) := by
    unfold Filters.ValidateFilters
    rw [Validator.Check_valid_iff, Validator.Check_valid_iff,
      Validator.Check_valid_iff, Validator.Check_valid_iff,
      Validator.Check_valid_iff]
    simp [Validator.New, Validator.Valid, PermittedValue]
    tauto
  refine ⟨?_, hiff⟩
  intro hp
  have h1 : decide (f.Page > 0) = true := by simp; omega
  have h2 : decide (f.Page ≤ 10000000) = false := by simp; omega
  constructor
  · have hbase : ((Validator.New.Check (decide (f.Page > 0)) "page"
        "must be greater than zero").Check (decide (f.Page ≤ 10000000))
        "page" "must be a maximum of 10 million").Errors.any
        (fun p => p.1 = "page") = true := by
      rw [h1, h2]
      simp [Validator.Check, Validator.AddError, Validator.New]
    unfold Filters.ValidateFilters
    exact Validator.Check_preserves_key _ _ _ _ _
      (Validator.Check_preserves_key _ _ _ _ _
        (Validator.Check_preserves_key _ _ _ _ _ hbase))
  · have hnv : ¬ ((f.ValidateFilters Validator.New).Valid = true) := by
      rw [hiff]
      intro hc
      omega
    exact Bool.eq_false_iff.mpr hnv

/-- C1: when the store holds a row for the id of the caller at the
version V the caller presents, MovieRepository.Update succeeds, writes
V + 1 back into the record of the caller, leaves the store holding that
id at version V + 1 with the submitted fields, makes a second attempt
that still presents V fail with ErrEditConflict, and touches versions
only by leaving a row unchanged or incrementing its version by exactly
one — never decrementing or reusing one. -/
theorem c1_update_increments_version (db : MovieTable) (m : Movie)
    (hrow : ∃ r ∈ db, r.ID = m.ID ∧ r.Version = m.Version) :
    ∃ db2 m2, MovieRepository.Update db m = .ok (db2, m2) ∧
      m2.Version = m.Version + 1 ∧
      m2.ID = m.ID ∧
      (∃ r2 ∈ db2, r2.ID = m.ID ∧ r2.Version = m.Version + 1 ∧
        r2.Title = m.Title ∧ r2.Year = m.Year ∧ r2.Runtime = m.Runtime ∧
        r2.Genres = m.Genres) ∧
      MovieRepository.Update db2 m = .error GoErr.editConflict ∧
      List.Forall₂ (fun r r2 : Movie => r2.ID = r.ID ∧
        (r2 = r ∨ r2.Version = r.Version + 1)) db db2 := by
  obtain ⟨r, hrmem, hrid, hrver⟩ := hrow
  cases hfind : db.find? (movieRowMatches m.ID m.Version) with
  | none =>
      exfalso
      have h := List.find?_eq_none.mp hfind r hrmem
      simp [movieRowMatches, hrid, hrver] at h
  | some r₀ =>
      have hp := List.find?_some hfind
      have hmem₀ := List.mem_of_find?_eq_some hfind
      have hid₀ : r₀.ID = m.ID ∧ r₀.Version = m.Version := by
        simpa [movieRowMatches] using hp
      refine ⟨db.map (fun s => if movieRowMatches m.ID m.Version s then
          { s with Title := m.Title, Year := m.Year, Runtime := m.Runtime,
                   Genres := m.Genres, Version := s.Version + 1 } else s),
        { m with Version := r₀.Version + 1 }, ?_, ?_, ?_, ?_, ?_, ?_⟩
      · simp [MovieRepository.Update, execUpdateMovie, hfind]
      · simp [hid₀.2]
      · rfl
      · refine ⟨_, List.mem_map_of_mem _ hmem₀, ?_⟩
        rw [if_pos hp]
        exact ⟨hid₀.1, by simp [hid₀.2], rfl, rfl, rfl, rfl⟩
      · have hnone : (db.map (fun s => if movieRowMatches m.ID m.Version s then
            { s with Title := m.Title, Year := m.Year, Runtime := m.Runtime,
                     Genres := m.Genres, Version := s.Version + 1 }
            else s)).find? (movieRowMatches m.ID m.Version) = none := by
          rw [List.find?_eq_none]
          intro s hs
          obtain ⟨t, _, rfl⟩ := List.mem_map.mp hs
          by_cases hpt : movieRowMatches m.ID m.Version t = true
          · rw [if_pos hpt]
            simp only [movieRowMatches, Bool.and_eq_true, decide_eq_true_eq]
              at hpt ⊢
            intro hc
            omega
          · rw [if_neg hpt]
            exact hpt
        simp [MovieRepository.Update, execUpdateMovie, hnone, errorsIs]
      · rw [List.forall₂_map_right_iff]
        rw [List.forall₂_same]
        intro x _
        by_cases hpx : movieRowMatches m.ID m.Version x = true
        · rw [if_pos hpx]
          exact ⟨rfl, Or.inr rfl⟩
        · rw [if_neg hpx]
          exact ⟨rfl, Or.inl rfl⟩

/-- Witness for c1_update_increments_version on a one-row store at
version 1. -/
theorem c1_update_increments_version_witness :
    ∃ db2 m2,
      MovieRepository.Update
          ([⟨1, 0, "Up", 2009, 96, ["animation"], 1⟩] : MovieTable)
          ⟨1, 0, "Up Revised", 2009, 101, ["animation", "adventure"], 1⟩ =
        .ok (db2, m2) ∧
      m2.Version = 1 + 1 ∧
      m2.ID = 1 ∧
      (∃ r2 ∈ db2, r2.ID = 1 ∧ r2.Version = 1 + 1 ∧
        r2.Title = "Up Revised" ∧ r2.Year = 2009 ∧ r2.Runtime = 101 ∧
        r2.Genres = ["animation", "adventure"]) ∧
      MovieRepository.Update db2
          ⟨1, 0, "Up Revised", 2009, 101, ["animation", "adventure"], 1⟩ =
        .error GoErr.editConflict ∧
      List.Forall₂ (fun r r2 : Movie => r2.ID = r.ID ∧
        (r2 = r ∨ r2.Version = r.Version + 1))
        ([⟨1, 0, "Up", 2009, 96, ["animation"], 1⟩] : MovieTable) db2 :=
  c1_update_increments_version _ _ (by decide)

/-- C2 counterexample: the user repository update path does not classify
the zero-matched-rows outcome — a stale-version update of an existing
user returns the raw pgx no-rows driver error, not ErrEditConflict, so
the classification is not performed uniformly for every resource. -/
theorem c2_user_update_stale_counterexample :
    UserRepository.Update
        ([⟨1, 0, "Alice", "alice@example.com", [1, 2], true, 2⟩] : UserTable)
        ⟨1, 0, "Alice", "alice@example.com", [1, 2], true, 1⟩ =
      .error GoErr.pgxNoRows ∧
    GoErr.pgxNoRows ≠ GoErr.editConflict := by
  refine ⟨rfl, ?_⟩
  decide

/-- C2 amended: the movie repository update path does classify the
outcome — whenever no stored row carries both the id and the expected
version of the caller, MovieRepository.Update returns ErrEditConflict
rather than the store error.  (The user repository update path and the
legacy movie model update path pass the no-rows store error through
unclassified.) -/
theorem c2_amended_movie_update_zero_rows_conflict (db : MovieTable)
    (m : Movie)
    (h : ∀ r ∈ db, ¬ (r.ID = m.ID ∧ r.Version = m.Version)) :
    MovieRepository.Update db m = .error GoErr.editConflict := by
  have hnone : db.find? (movieRowMatches m.ID m.Version) = none := by
    rw [List.find?_eq_none]
    intro x hx
    simp only [movieRowMatches, Bool.and_eq_true, decide_eq_true_eq]
    exact h x hx
  simp [MovieRepository.Update, execUpdateMovie, hnone, errorsIs]

/-- Witness for c2_amended_movie_update_zero_rows_conflict: an update
against a store whose only row is at a newer version conflicts. -/
theorem c2_amended_movie_update_zero_rows_conflict_witness :
    MovieRepository.Update
        ([⟨7, 0, "Up", 2009, 96, ["animation"], 4⟩] : MovieTable)
        ⟨7, 0, "Up Again", 2009, 96, ["animation"], 3⟩ =
      .error GoErr.editConflict :=
  c2_amended_movie_update_zero_rows_conflict _ _ (by decide)

/-- C3: the movie repository rejects id < 1 as ErrRecordNotFound with
zero store round-trips and maps an absent id to ErrRecordNotFound; but
the user repository read path compares the pgx no-rows driver error
against the database/sql sentinel, which under the pinned pgx v5.0.4
does not match, so a read of an absent email returns the raw store
error instead of ErrRecordNotFound — contradicting the claim for the
user resource. -/
theorem c3_read_not_found_user_read_bug :
    MovieRepository.Read
        ([⟨1, 0, "Up", 2009, 96, ["animation"], 1⟩] : MovieTable) (-5) =
      (.error GoErr.recordNotFound, 0) ∧
    MovieRepository.Read
        ([⟨1, 0, "Up", 2009, 96, ["animation"], 1⟩] : MovieTable) 99 =
      (.error GoErr.recordNotFound, 1) ∧
    UserRepository.Read ([] : UserTable) "ghost@example.com" =
      .error GoErr.pgxNoRows ∧
    GoErr.pgxNoRows ≠ GoErr.recordNotFound := by
  refine ⟨rfl, rfl, rfl, ?_⟩
  decide

/-- C4: for id >= 1 the movie delete issues exactly one store command
(no prior existence check), reports ErrRecordNotFound exactly when that
command affected zero rows — in particular when no row carries the id —
and after deleting an existing id a subsequent read of that id reports
ErrRecordNotFound. -/
theorem c4_delete_zero_rows_affected (db : MovieTable) (id : Int)
    (hid : 1 ≤ id) :
    (MovieRepository.Delete db id).2.2 = 1 ∧
    ((MovieRepository.Delete db id).1 = .error GoErr.recordNotFound ↔
      (execDeleteMovie db id).2 = 0) ∧
    ((∀ r ∈ db, r.ID ≠ id) →
      MovieRepository.Delete db id = (.error GoErr.recordNotFound, db, 1)) ∧
    (∀ r ∈ db, r.ID = id →
      (MovieRepository.Delete db id).1 = .ok () ∧
      (MovieRepository.Read (MovieRepository.Delete db id).2.1 id).1 =
        .error GoErr.recordNotFound) := by
  have hnlt : ¬ id < 1 := by omega
  refine ⟨?_, ?_, ?_, ?_⟩
  · by_cases h0 : (execDeleteMovie db id).2 = 0 <;>
      simp [MovieRepository.Delete, hnlt, h0]
  · by_cases h0 : (execDeleteMovie db id).2 = 0 <;>
      simp [MovieRepository.Delete, hnlt, h0]
  · intro hnone
    have hfn : db.filter (fun r => !(r.ID = id)) = db := by
      rw [List.filter_eq_self]
      intro r hr
      simpa using hnone r hr
    have hfz : db.filter (fun r => r.ID = id) = [] := by
      rw [List.filter_eq_nil_iff]
      intro r hr
      simpa using hnone r hr
    simp [MovieRepository.Delete, hnlt, execDeleteMovie, hfn, hfz]
  · intro r hr hrid
    have hne : (execDeleteMovie db id).2 ≠ 0 := by
      intro hz
      have : db.filter (fun s => s.ID = id) = [] :=
        List.length_eq_zero.mp hz
      have hmem : r ∈ db.filter (fun s => s.ID = id) :=
        List.mem_filter.mpr ⟨hr, by simpa using hrid⟩
      rw [this] at hmem
      cases hmem
    constructor
    · simp [MovieRepository.Delete, hnlt, hne]
    · have hdb2 : (MovieRepository.Delete db id).2.1 =
          db.filter (fun s => !(s.ID = id)) := by
        simp only [MovieRepository.Delete, hnlt, if_false]
        split <;> rfl
      have hfind : (db.filter (fun s => !(s.ID = id))).find?
          (fun s => s.ID = id) = none := by
        rw [List.find?_eq_none]
        intro s hs
        have := (List.mem_filter.mp hs).2
        simpa using this
      rw [hdb2]
      simp [MovieRepository.Read, hnlt, execReadMovie, hfind, errorsIs]

/-- Witness for c4_delete_zero_rows_affected on a one-row store at
id 1. -/
theorem c4_delete_zero_rows_affected_witness :
    (MovieRepository.Delete
        ([⟨1, 0, "Up", 2009, 96, ["animation"], 1⟩] : MovieTable) 1).2.2 = 1 ∧
    ((MovieRepository.Delete
        ([⟨1, 0, "Up", 2009, 96, ["animation"], 1⟩] : MovieTable) 1).1 =
        .error GoErr.recordNotFound ↔
      (execDeleteMovie
        ([⟨1, 0, "Up", 2009, 96, ["animation"], 1⟩] : MovieTable) 1).2 = 0) ∧
    ((∀ r ∈ ([⟨1, 0, "Up", 2009, 96, ["animation"], 1⟩] : MovieTable),
        r.ID ≠ 1) →
      MovieRepository.Delete
          ([⟨1, 0, "Up", 2009, 96, ["animation"], 1⟩] : MovieTable) 1 =
        (.error GoErr.recordNotFound,
          ([⟨1, 0, "Up", 2009, 96, ["animation"], 1⟩] : MovieTable), 1)) ∧
    (∀ r ∈ ([⟨1, 0, "Up", 2009, 96, ["animation"], 1⟩] : MovieTable),
      r.ID = 1 →
      (MovieRepository.Delete
          ([⟨1, 0, "Up", 2009, 96, ["animation"], 1⟩] : MovieTable) 1).1 =
        .ok () ∧
      (MovieRepository.Read (MovieRepository.Delete
          ([⟨1, 0, "Up", 2009, 96, ["animation"], 1⟩] : MovieTable) 1).2.1
          1).1 = .error GoErr.recordNotFound) :=
  c4_delete_zero_rows_affected _ 1 (by decide)

/-- C5: a create whose email already exists in the users table and an
update that would set the email of an existing user to the email of a
different user both surface the unique-constraint violation as
ErrDuplicateEmail, never as the opaque SQLSTATE 23505 store error. -/
theorem c5_duplicate_email_classified (dbc dbu : UserTable) (u v : User)
    (newId ts : Int)
    (hc : ∃ s ∈ dbc, s.Email = u.Email)
    (hmatch : ∃ s ∈ dbu, s.ID = v.ID ∧ s.Version = v.Version)
    (hdup : ∃ s ∈ dbu, s.ID ≠ v.ID ∧ s.Email = v.Email) :
    UserRepository.Create dbc u newId ts = .error GoErr.duplicateEmail ∧
    UserRepository.Update dbu v = .error GoErr.duplicateEmail := by
  constructor
  · obtain ⟨s, hs, hse⟩ := hc
    have hany : dbc.any (fun s => s.Email = u.Email) = true :=
      List.any_eq_true.mpr ⟨s, hs, by simpa using hse⟩
    simp [UserRepository.Create, execCreateUser, hany, classifyUserErr,
      errorsAsPgError, UniqueViolation]
  · obtain ⟨s, hs, hsid, hsver⟩ := hmatch
    cases hfind : dbu.find? (userRowMatches v.ID v.Version) with
    | none =>
        exfalso
        have h := List.find?_eq_none.mp hfind s hs
        simp [userRowMatches, hsid, hsver] at h
    | some r₀ =>
        obtain ⟨w, hw, hwid, hwe⟩ := hdup
        have hany : dbu.any
            (fun s => !(s.ID = v.ID) && s.Email = v.Email) = true :=
          List.any_eq_true.mpr ⟨w, hw, by simp [hwid, hwe]⟩
        simp [UserRepository.Update, execUpdateUser, hfind, hany,
          classifyUserErr, errorsAsPgError, UniqueViolation]

/-- Witness for c5_duplicate_email_classified: creating a second bob and
renaming carol to the email of bob both report the duplicate email. -/
theorem c5_duplicate_email_classified_witness :
    UserRepository.Create
        ([⟨1, 0, "Bob", "bob@example.com", [1], true, 1⟩] : UserTable)
        ⟨0, 0, "Bob Two", "bob@example.com", [2], false, 0⟩ 2 5 =
      .error GoErr.duplicateEmail ∧
    UserRepository.Update
        ([⟨1, 0, "Bob", "bob@example.com", [1], true, 1⟩,
          ⟨2, 0, "Carol", "carol@example.com", [3], true, 1⟩] : UserTable)
        ⟨2, 0, "Carol", "bob@example.com", [3], true, 1⟩ =
      .error GoErr.duplicateEmail :=
  c5_duplicate_email_classified _ _ _ _ 2 5 (by decide) (by decide)
    (by decide)

/-- Witness for c10_validate_filters_page_upper_bound at page
10,000,001. -/
theorem c10_validate_filters_page_upper_bound_witness :
    ((Filters.ValidateFilters ⟨10000001, 20, "id", ["id"]⟩
        Validator.New).Errors.any (fun p => p.1 = "page")) = true ∧
    (Filters.ValidateFilters ⟨10000001, 20, "id", ["id"]⟩
        Validator.New).Valid = false :=
  (c10_validate_filters_page_upper_bound ⟨10000001, 20, "id", ["id"]⟩).1
    (by decide)

end JsonApi
